import Mathlib

/-!
Shallow embedding of `ok_tool_server.py`, a single-file line-delimited
JSON-RPC server exposing four UI-automation tools (capture, click, key,
wait).  Pure logic (argument parsing with Python falsy-or defaults,
window selection, the normalized-to-screen coordinate transform, method
routing) is translated directly; the external Win32 / PIL /
pydirectinput providers are parameters of an environment record, and
their side effects (posted messages, sleeps) are reified as event lists.
Machine integers are `Int` (Python ints are unbounded); the `x`,`y`
click coordinates are `ℚ` standing for the float arguments.
-/

namespace OkWW

/-- Python `round`: banker's rounding (round half to even), as applied by
`int(round(...))` in `_tool_click`. -/
def pyRound (q : ℚ) : ℤ :=
  let f := ⌊q⌋
  let r := q - (f : ℚ)
  if r < 1/2 then f
  else if 1/2 < r then f + 1
  else if f % 2 == 0 then f else f + 1

instance {ε α : Type} [DecidableEq ε] [DecidableEq α] : DecidableEq (Except ε α) :=
  fun x y =>
    match x, y with
    | Except.ok a, Except.ok b =>
      if h : a = b then isTrue (by rw [h]) else isFalse (by simp [h])
    | Except.ok _, Except.error _ => isFalse (by simp)
    | Except.error _, Except.ok _ => isFalse (by simp)
    | Except.error a, Except.error b =>
      if h : a = b then isTrue (by rw [h]) else isFalse (by simp [h])

/-- Python `str.lower()` restricted to the character-wise case mapping. -/
def pyLower (s : String) : String :=
  ⟨s.data.map Char.toLower⟩

/-- Drop leading whitespace characters. -/
def dropSpace : List Char → List Char
  | [] => []
  | c :: t => if c.isWhitespace then dropSpace t else c :: t

/-- Python `str.strip()`: trim surrounding whitespace. -/
def pyStrip (s : String) : String :=
  ⟨(dropSpace (dropSpace s.data).reverse).reverse⟩

/-- Check that `needle` occurs at the head of `hay`. -/
def leadsWith : List Char → List Char → Bool
  | [], _ => true
  | _ :: _, [] => false
  | a :: as, b :: bs => a == b && leadsWith as bs

/-- Python `needle in hay` on strings: contiguous substring test. -/
def hasSub (needle : List Char) : List Char → Bool
  | [] => leadsWith needle []
  | c :: t => leadsWith needle (c :: t) || hasSub needle t

/-- Python `int(v or d)` where `v` is an optional integer: `None` and `0`
are falsy and are replaced by the default. -/
def orInt (v : Option Int) (d : Int) : Int :=
  match v with
  | none => d
  | some n => if n == 0 then d else n

/-- Python `(v or d)` where `v` is an optional string: `None` and `""`
are falsy and are replaced by the default. -/
def orStr (v : Option String) (d : String) : String :=
  match v with
  | none => d
  | some s => if s == "" then d else s

/-- Python `(a or b)` on two optional strings (used to fall back from the
`hwnd_class` argument to the startup-config default). -/
def pyOrOptStr (a b : Option String) : Option String :=
  match a with
  | none => b
  | some s => if s == "" then b else some s

/-- Python `bool(v or False)` for an optional boolean argument. -/
def orBool (v : Option Bool) : Bool :=
  match v with
  | none => false
  | some b => b

/-- Python truthiness of an optional string (`if target.hwnd_class:`). -/
def optStrTruthy (v : Option String) : Bool :=
  match v with
  | none => false
  | some s => s != ""

/-- The `WindowTarget` dataclass from the source. -/
structure WindowTarget where
  hwnd_class : Option String := none
  title_contains : Option String := none
  include_window_frame : Bool := false
deriving DecidableEq, Repr

/-- One top-level window as seen through the Win32 provider interface:
visibility state, class name, title, the outer rectangle returned by
`GetWindowRect` (`none` when the query raises), the `GetClientRect`
rectangle and the client-to-screen translation used by `ClientToScreen`.
`propsFail` models an exception raised by `GetClassName`/`GetWindowText`
while the enumeration callback inspects the window. -/
structure Window where
  alive : Bool := true
  visible : Bool := true
  className : String := ""
  title : String := ""
  propsFail : Bool := false
  rectQ : Option (Int × Int × Int × Int) := none
  clientRect : Int × Int × Int × Int := (0, 0, 0, 0)
  clientOrigin : Int × Int := (0, 0)
deriving DecidableEq, Repr

/-- Environment of external capabilities: whether pywin32 and
pydirectinput import, the primary-display metrics query (`none` when
`GetSystemMetrics` raises), the enumerated window list, whether
`EnumWindows` itself raises, the startup-config default window class,
the `VkKeyScan` lookup, and the capture/encode pipeline result for a
given rect (abstracting PIL). -/
structure Env where
  win32 : Bool := true
  pydirect : Bool := true
  metrics : Option (Int × Int) := none
  windows : List Window := []
  enumFails : Bool := false
  cfgClass : Option String := none
  scan : String → Int := fun _ => -1
  grabEnc : (Int × Int × Int × Int) → Except String (Int × Int) :=
    fun _ => Except.error "pillow is required for capture"

/-- Enumeration-callback filter from `_find_window.enum_cb`: the window
must be alive and visible; when the class filter is truthy the class
name must match exactly (the `GetClassName` query can raise, skipping
the window); when the title filter is truthy the lowered filter must be
a substring of the lowered title (the `GetWindowText` query can raise,
skipping the window). -/
def enumKeeps (t : WindowTarget) (w : Window) : Bool :=
  w.alive && w.visible &&
  (if optStrTruthy t.hwnd_class then
      !w.propsFail && (w.className == t.hwnd_class.getD "")
   else true) &&
  (if optStrTruthy t.title_contains then
      !w.propsFail &&
        hasSub (pyLower (t.title_contains.getD "")).data (pyLower w.title).data
   else true)

/-- Area key from `_find_window.area`: `max(0, r-l) * max(0, b-t)`, and
`0` when the `GetWindowRect` query raises. -/
def area (w : Window) : Int :=
  match w.rectQ with
  | some (l, t, r, b) => max 0 (r - l) * max 0 (b - t)
  | none => 0

/-- One comparison step of Python `max(xs, key=f)`: keep the current
best unless the next key is strictly greater. -/
def pickStep {α : Type} (f : α → Int) (best y : α) : α :=
  if f best < f y then y else best

/-- Python `max(xs, key=f)` wrapped in an option for the empty list: the
fold keeps the current best and replaces it only on a strictly greater
key, so the first of several maximal elements wins. -/
def pickMax {α : Type} (f : α → Int) : List α → Option α
  | [] => none
  | x :: xs => some (xs.foldl (pickStep f) x)

/-- Function `_find_window`: `None` when pywin32 is missing or `EnumWindows`
raises; otherwise filter the enumeration with `enumKeeps` and take the
maximum-area candidate (first-enumerated on ties), `None` when no
candidate remains. -/
def findWindow (env : Env) (t : WindowTarget) : Option Window :=
  if !env.win32 then none
  else if env.enumFails then none
  else pickMax area (env.windows.filter (enumKeeps t))

/-- Function `_get_capture_rect`: for `target == "screen"` the primary-display
rect, with the fixed `(0,0,1920,1080)` fallback when the metrics query
raises; otherwise resolve the window and use either its outer rect
(`include_window_frame`) or its client rect translated to screen
coordinates. -/
def getCaptureRect (env : Env) (target : String) (wt : WindowTarget) :
    Except String (Int × Int × Int × Int) :=
  if target == "screen" then
    match env.metrics with
    | some (w, h) => Except.ok (0, 0, w, h)
    | none => Except.ok (0, 0, 1920, 1080)
  else
    if !env.win32 then Except.error "pywin32 is required for window capture"
    else
      match findWindow env wt with
      | none => Except.error "target window not found"
      | some w =>
        if wt.include_window_frame then
          match w.rectQ with
          | some r => Except.ok r
          | none => Except.error "GetWindowRect failed"
        else
          let (cl, ct, cr, cb) := w.clientRect
          let (ox, oy) := w.clientOrigin
          Except.ok (ox + cl, oy + ct, ox + cr, oy + cb)

/-- One axis of the normalized-to-screen mapping:
`round(base + x * size)`. -/
def mapCoord (base : Int) (x : ℚ) (size : Int) : Int :=
  pyRound ((base : ℚ) + x * (size : ℚ))

/-- Normalized-to-screen mapping inlined in `_tool_click`:
`width = max(1, r-l)`, `height = max(1, b-t)`,
`px = round(l + x*width)`, `py = round(t + y*height)`. -/
def normToScreen (l t r b : Int) (x y : ℚ) : Int × Int :=
  let width : Int := max 1 (r - l)
  let height : Int := max 1 (b - t)
  (mapCoord l x width, mapCoord t y height)

/-- Win32 message and flag constants used by the click/key paths. -/
def WM_LBUTTONDOWN : Int := 0x0201
def WM_LBUTTONUP : Int := 0x0202
def WM_RBUTTONDOWN : Int := 0x0204
def WM_RBUTTONUP : Int := 0x0205
def WM_MBUTTONDOWN : Int := 0x0207
def WM_MBUTTONUP : Int := 0x0208
def MK_LBUTTON : Int := 0x0001
def MK_RBUTTON : Int := 0x0002
def MK_MBUTTON : Int := 0x0010
def WM_KEYDOWN : Int := 0x0100
def WM_KEYUP : Int := 0x0101

/-- Union of the argument objects accepted by the four tools.  Each field
is optional; `none` stands for an absent key (Python `args.get(...)`
returning `None`).  `x` and `y` are required by `click`: when absent the
subscript raises `KeyError`. -/
structure ToolArgs where
  target : Option String := none
  hwnd_class : Option String := none
  title_contains : Option String := none
  include_window_frame : Option Bool := none
  format : Option String := none
  quality : Option Int := none
  max_width : Option Int := none
  max_height : Option Int := none
  mode : Option String := none
  x : Option ℚ := none
  y : Option ℚ := none
  button : Option String := none
  clicks : Option Int := none
  interval_ms : Option Int := none
  key : Option String := none
  action : Option String := none
  repeatN : Option Int := none
  ms : Option Int := none
deriving DecidableEq, Repr

/-- Result of `_tool_wait`: the acknowledgment text, the sleeps performed
(in milliseconds) and the echoed `ms` metadata. -/
structure WaitOut where
  text : String
  sleeps : List Int
  ms : Int
deriving DecidableEq, Repr

/-- One observable input-injection action of `_tool_click`. -/
inductive ClickEvent
  | moveTo (x y : Int)
  | directClick (button : String)
  | post (msg wparam lparam : Int)
deriving DecidableEq, Repr

/-- Result of `_tool_click`.  The response text interpolates the same
fields (with `x`,`y` printed to four decimals); the float formatting is
not modelled, so the components are carried directly. -/
structure ClickOut where
  target : String
  mode : String
  button : String
  x : ℚ
  y : ℚ
  px : Int
  py : Int
  rect : Int × Int × Int × Int
  clicks : Int
  intervalMs : Int
  events : List ClickEvent
  sleeps : List Int
deriving DecidableEq, Repr

/-- One observable input-injection action of `_tool_key`. -/
inductive KeyEvent
  | directDown (k : String)
  | directUp (k : String)
  | directPress (k : String)
  | post (msg wparam lparam : Int)
deriving DecidableEq, Repr

/-- Result of `_tool_key`. -/
structure KeyOut where
  text : String
  mode : String
  key : String
  action : String
  repeatN : Int
  intervalMs : Int
  events : List KeyEvent
  sleeps : List Int
deriving DecidableEq, Repr

/-- Result of `_tool_capture`: the resolved rect plus the encoded image
size reported by the PIL pipeline (image bytes abstracted away). -/
structure CapOut where
  target : String
  rect : Int × Int × Int × Int
  width : Int
  height : Int
deriving DecidableEq, Repr

/-- Sum of the four tools' results. -/
inductive ToolOut
  | wait (w : WaitOut)
  | click (c : ClickOut)
  | key (k : KeyOut)
  | capture (c : CapOut)
deriving DecidableEq, Repr

/-- Function `_tool_wait`: `ms = int(args.get("ms") or 250)`, sleep once for that
duration, acknowledge with `"wait ok: {ms}ms"`. -/
def toolWait (a : ToolArgs) : Except String WaitOut :=
  let ms := orInt a.ms 250
  Except.ok { text := "wait ok: " ++ toString ms ++ "ms", sleeps := [ms], ms := ms }

/-- Inter-iteration sleeps of the click/key loops: after each iteration
except the last, and only when the interval is positive. -/
def loopSleeps (count interval : Int) : List Int :=
  if interval > 0 then List.replicate (count - 1).toNat interval else []

/-- Function `_tool_capture`: parse arguments with falsy defaults, resolve the
rect, then run the PIL grab/encode pipeline (abstracted in the
environment) over it. -/
def toolCapture (env : Env) (a : ToolArgs) : Except String CapOut :=
  let target := pyLower (orStr a.target "window")
  let hc := pyOrOptStr a.hwnd_class env.cfgClass
  let wt : WindowTarget :=
    { hwnd_class := if optStrTruthy hc then hc else none,
      title_contains := a.title_contains,
      include_window_frame := orBool a.include_window_frame }
  match getCaptureRect env target wt with
  | Except.error e => Except.error e
  | Except.ok rect =>
    match env.grabEnc rect with
    | Except.error e => Except.error e
    | Except.ok (w, h) =>
      Except.ok { target := target, rect := rect, width := w, height := h }

/-- Function `_tool_click`: parse arguments with falsy defaults (`clicks or 1`,
`interval_ms or 60`), read the required `x`,`y`, resolve the rect, map
to screen pixels with `normToScreen`, then inject via pydirectinput or
post button messages to the re-resolved window. -/
def toolClick (env : Env) (a : ToolArgs) : Except String ClickOut :=
  let target := pyLower (orStr a.target "window")
  let mode := pyLower (orStr a.mode "postmessage")
  let button := pyLower (orStr a.button "left")
  let clicks := orInt a.clicks 1
  let interval := orInt a.interval_ms 60
  match a.x, a.y with
  | none, _ => Except.error "'x'"
  | some _, none => Except.error "'y'"
  | some x, some y =>
    let hc := pyOrOptStr a.hwnd_class env.cfgClass
    let wt : WindowTarget :=
      { hwnd_class := if optStrTruthy hc then hc else none,
        title_contains := a.title_contains,
        include_window_frame := orBool a.include_window_frame }
    match getCaptureRect env target wt with
    | Except.error e => Except.error e
    | Except.ok (l, t, r, b) =>
      let (px, py) := normToScreen l t r b x y
      let base : ClickOut :=
        { target := target, mode := mode, button := button, x := x, y := y,
          px := px, py := py, rect := (l, t, r, b), clicks := clicks,
          intervalMs := interval, events := [], sleeps := loopSleeps clicks interval }
      if mode == "pydirectinput" then
        if !env.pydirect then
          Except.error "pydirectinput is required for click mode=pydirectinput"
        else
          let btn := if button == "right" then "right"
                     else if button == "middle" then "middle" else "left"
          Except.ok { base with
            events := ClickEvent.moveTo px py ::
              (List.range clicks.toNat).map (fun _ => ClickEvent.directClick btn) }
      else
        if !env.win32 then
          Except.error "pywin32 is required for click mode=postmessage"
        else
          match findWindow env wt with
          | none => Except.error "target window not found"
          | some w =>
            let (ox, oy) := w.clientOrigin
            let cx := px - ox
            let cy := py - oy
            let lparam := cy * 65536 + cx.emod 65536
            let (dn, up, wp) :=
              if button == "right" then (WM_RBUTTONDOWN, WM_RBUTTONUP, MK_RBUTTON)
              else if button == "middle" then (WM_MBUTTONDOWN, WM_MBUTTONUP, MK_MBUTTON)
              else (WM_LBUTTONDOWN, WM_LBUTTONUP, MK_LBUTTON)
            Except.ok { base with
              events := (List.range clicks.toNat).flatMap
                (fun _ => [ClickEvent.post dn wp lparam, ClickEvent.post up 0 lparam]) }

/-- Virtual-key constants from `win32con` used by the alias table. -/
def VK_ESCAPE : Int := 0x1B
def VK_SPACE : Int := 0x20
def VK_TAB : Int := 0x09
def VK_RETURN : Int := 0x0D
def VK_BACK : Int := 0x08
def VK_DELETE : Int := 0x2E
def VK_UP : Int := 0x26
def VK_DOWN : Int := 0x28
def VK_LEFT : Int := 0x25
def VK_RIGHT : Int := 0x27
def VK_SHIFT : Int := 0x10
def VK_LSHIFT : Int := 0xA0
def VK_RSHIFT : Int := 0xA1
def VK_CONTROL : Int := 0x11
def VK_LCONTROL : Int := 0xA2
def VK_RCONTROL : Int := 0xA3
def VK_MENU : Int := 0x12
def VK_LMENU : Int := 0xA4
def VK_RMENU : Int := 0xA5
/-- Function-key constants: the code of the n-th key, with F1 at 0x70. -/
def VK_F (n : Int) : Int := 0x6F + n

/-- The `special` alias dictionary of `_vk_from_key`, in source order. -/
def special : List (String × Int) :=
  [("esc", VK_ESCAPE), ("escape", VK_ESCAPE), ("space", VK_SPACE),
   ("tab", VK_TAB), ("enter", VK_RETURN), ("return", VK_RETURN),
   ("backspace", VK_BACK), ("delete", VK_DELETE),
   ("up", VK_UP), ("down", VK_DOWN), ("left", VK_LEFT), ("right", VK_RIGHT),
   ("shift", VK_SHIFT), ("lshift", VK_LSHIFT), ("rshift", VK_RSHIFT),
   ("ctrl", VK_CONTROL), ("control", VK_CONTROL),
   ("lctrl", VK_LCONTROL), ("rctrl", VK_RCONTROL),
   ("alt", VK_MENU), ("menu", VK_MENU), ("lalt", VK_LMENU), ("ralt", VK_RMENU)]

/-- Digit-string check for the function-key pattern
(`key[1:].isdigit()`: nonempty and all decimal digits). -/
def allDigits (cs : List Char) : Bool :=
  !cs.isEmpty && cs.all Char.isDigit

/-- Decimal value of a digit string, as `int(key[1:])`. -/
def natOfDigits (cs : List Char) : Int :=
  cs.foldl (fun acc c => acc * 10 + (c.toNat - 48)) 0

/-- Function-key tier of `_vk_from_key`: `f` followed by digits whose
value lies in `1..24`; out-of-range values fall through to later tiers. -/
def fKeyCode (key : String) : Option Int :=
  match key.data with
  | 'f' :: rest =>
    if allDigits rest then
      let n := natOfDigits rest
      if 1 ≤ n && n ≤ 24 then some (VK_F n) else none
    else none
  | _ => none

/-- Single-alphanumeric-character tier: `len(key) == 1 and key.isalnum()`
maps to the uppercase code point. -/
def charCode (key : String) : Option Int :=
  match key.data with
  | [c] => if c.isAlphanum then some (c.toUpper.toNat : Int) else none
  | _ => none

/-- Function `_vk_from_key`: lower the stripped name, then try the alias
dictionary, the function-key pattern, the single-character rule, and
finally `VkKeyScan`, raising `Unsupported key` when the scan returns
`-1`; a successful scan is masked to its low byte. -/
def vkFromKey (scan : String → Int) (name : String) : Except String Int :=
  let key := pyLower (pyStrip name)
  match special.lookup key with
  | some v => Except.ok v
  | none =>
    match fKeyCode key with
    | some v => Except.ok v
    | none =>
      match charCode key with
      | some v => Except.ok v
      | none =>
        let v := scan key
        if v == -1 then Except.error ("Unsupported key: " ++ name)
        else Except.ok (v.emod 256)

/-- Modelled from the spec: the four-tier precedence description of key
resolution in §9 of the design notes — an ordered check of exact alias,
then function-key pattern, then single character, then generic scan-code
lookup, failing only when all four tiers fail. -/
def vkFourTier (scan : String → Int) (name : String) : Except String Int :=
  let key := pyLower (pyStrip name)
  let tier4 : Option Int :=
    if scan key == -1 then none else some ((scan key).emod 256)
  match (special.lookup key <|> fKeyCode key <|> charCode key <|> tier4) with
  | some v => Except.ok v
  | none => Except.error ("Unsupported key: " ++ name)

/-- Function `_tool_key`: parse arguments with falsy defaults (`repeat or 1`,
`interval_ms or 35`); in pydirectinput mode inject key events directly;
in postmessage mode resolve the window, resolve the virtual key, and
post `WM_KEYDOWN`/`WM_KEYUP` per `action` for each repetition. -/
def toolKey (env : Env) (a : ToolArgs) : Except String KeyOut :=
  let mode := pyLower (orStr a.mode "postmessage")
  match a.key with
  | none => Except.error "'key'"
  | some key =>
    let action := pyLower (orStr a.action "press")
    let rep := orInt a.repeatN 1
    let interval := orInt a.interval_ms 35
    let hc := pyOrOptStr a.hwnd_class env.cfgClass
    let wt : WindowTarget :=
      { hwnd_class := if optStrTruthy hc then hc else none,
        title_contains := a.title_contains }
    let text := "key ok: mode=" ++ mode ++ " key=" ++ key ++ " action=" ++ action
      ++ " repeat=" ++ toString rep
    if mode == "pydirectinput" then
      if !env.pydirect then
        Except.error "pydirectinput is required for key mode=pydirectinput"
      else
        let ev : KeyEvent :=
          if action == "down" then KeyEvent.directDown key
          else if action == "up" then KeyEvent.directUp key
          else KeyEvent.directPress key
        Except.ok
          { text := text, mode := mode, key := key, action := action,
            repeatN := rep, intervalMs := interval,
            events := (List.range rep.toNat).map (fun _ => ev),
            sleeps := loopSleeps rep interval }
    else
      if !env.win32 then
        Except.error "pywin32 is required for key mode=postmessage"
      else
        match findWindow env wt with
        | none => Except.error "target window not found"
        | some _ =>
          match vkFromKey env.scan key with
          | Except.error e => Except.error e
          | Except.ok vk =>
            let per : List KeyEvent :=
              (if action == "press" || action == "down" then
                 [KeyEvent.post WM_KEYDOWN vk 0] else []) ++
              (if action == "press" || action == "up" then
                 [KeyEvent.post WM_KEYUP vk 0] else [])
            Except.ok
              { text := text, mode := mode, key := key, action := action,
                repeatN := rep, intervalMs := interval,
                events := (List.range rep.toNat).flatMap (fun _ => per),
                sleeps := loopSleeps rep interval }

/-- Field `params.name` as read from the request: absent or `None`, present
but not a string, or a string. -/
inductive NameParam
  | absent
  | nonString
  | str (s : String)
deriving DecidableEq, Repr

/-- Field `params.arguments` as read from the request: absent or `None`,
present but not an object, or an argument object. -/
inductive ArgsParam
  | absent
  | nonObject
  | obj (a : ToolArgs)
deriving DecidableEq, Repr

/-- The `params` object of a request (absent `params` is the all-absent
record, matching `req.get("params") or {}`). -/
structure ReqParams where
  protocolVersion : Option String := none
  name : NameParam := NameParam.absent
  arguments : ArgsParam := ArgsParam.absent
deriving DecidableEq, Repr

/-- One parsed JSON-object line.  `method = none` models a dict without
a `"method"` key; `id = none` models an absent or JSON-`null` id (the
code cannot distinguish them: `req.get("id")` is `None` for both). -/
structure Req where
  method : Option String := none
  id : Option Int := none
  params : ReqParams := {}
deriving DecidableEq, Repr

/-- Payload of a success response, per method. -/
inductive ResultVal
  | initResult (protocolVersion : String)
  | toolsList
  | resourcesList
  | promptsList
  | toolCall (t : ToolOut)
deriving DecidableEq, Repr

/-- One line written to stdout: a result or an error response, tagged
with the echoed id. -/
inductive RpcOut
  | res (id : Option Int) (r : ResultVal)
  | err (id : Option Int) (code : Int) (msg : String)
deriving DecidableEq, Repr

/-- Default protocol version constant `MCP_PROTOCOL_VERSION`. -/
def MCP_PROTOCOL_VERSION : String := "2024-11-05"

/-- Function `_handle_call`: absent arguments become the empty object, a
non-object raises, then the name is dispatched over the four tools with
`unknown tool: <name>` for anything else. -/
def handleCall (env : Env) (name : String) (args : ArgsParam) : Except String ToolOut :=
  match args with
  | ArgsParam.nonObject => Except.error "arguments must be an object"
  | ArgsParam.absent => dispatch env name {}
  | ArgsParam.obj a => dispatch env name a
where
  /-- The name-dispatch chain of `_handle_call`, in source order. -/
  dispatch (env : Env) (name : String) (a : ToolArgs) : Except String ToolOut :=
    if name == "capture" then (toolCapture env a).map ToolOut.capture
    else if name == "click" then (toolClick env a).map ToolOut.click
    else if name == "key" then (toolKey env a).map ToolOut.key
    else if name == "wait" then (toolWait a).map ToolOut.wait
    else Except.error ("unknown tool: " ++ name)

/-- Protocol version negotiation in the `initialize` branch:
`params.get("protocolVersion") or MCP_PROTOCOL_VERSION` — an absent or
empty (falsy) client string yields the fixed default. -/
def initVersion (pv : Option String) : String :=
  orStr pv MCP_PROTOCOL_VERSION

/-- Function `_handle_request`: no output when `"method"` is absent; `initialize`
answers with the negotiated version; the `initialized` notification
aliases answer nothing; the three list methods answer their static
payloads; `tools/call` validates `params.name`, dispatches, and converts
any exception into a `-32000` error response; any other method is
answered `-32601` only when an id is present.  Each branch echoes
`req.get("id")` as is. -/
def handleRequest (env : Env) (req : Req) : List RpcOut :=
  match req.method with
  | none => []
  | some m =>
    let ps := req.params
    if m == "initialize" then
      [RpcOut.res req.id (ResultVal.initResult (initVersion ps.protocolVersion))]
    else if m == "initialized" || m == "notifications/initialized" then []
    else if m == "tools/list" then [RpcOut.res req.id ResultVal.toolsList]
    else if m == "resources/list" then [RpcOut.res req.id ResultVal.resourcesList]
    else if m == "prompts/list" then [RpcOut.res req.id ResultVal.promptsList]
    else if m == "tools/call" then
      match ps.name with
      | NameParam.str n =>
        if n == "" then [RpcOut.err req.id (-32000) "params.name is required"]
        else
          match handleCall env n ps.arguments with
          | Except.ok t => [RpcOut.res req.id (ResultVal.toolCall t)]
          | Except.error e => [RpcOut.err req.id (-32000) e]
      | _ => [RpcOut.err req.id (-32000) "params.name is required"]
    else
      match req.id with
      | some _ => [RpcOut.err req.id (-32601) ("Method not found: " ++ m)]
      | none => []

/-- One raw input line after decode and `strip()`: blank, undecodable as
JSON, decodable but not a JSON object, or a JSON object (a request). -/
inductive Line
  | empty
  | badJson
  | nonObject
  | obj (r : Req)
deriving DecidableEq, Repr

/-- A line is malformed when it is blank, fails to parse, or parses to
something other than an object. -/
def malformed (l : Line) : Bool :=
  match l with
  | Line.obj _ => false
  | _ => true

/-- Output produced by `main` for one input line: malformed lines are
silently dropped (`continue`), object lines are handed to
`_handle_request`. -/
def lineOut (env : Env) (l : Line) : List RpcOut :=
  match l with
  | Line.obj r => handleRequest env r
  | _ => []

/-- The `main` transport loop over the whole input stream: every line is
processed in order until the stream ends, concatenating the emitted
responses. -/
def processLines (env : Env) (ls : List Line) : List RpcOut :=
  ls.flatMap (lineOut env)

/-- Id tag carried by an output line. -/
def rpcId : RpcOut → Option Int
  | RpcOut.res i _ => i
  | RpcOut.err i _ _ => i

/-- A visible window titled `T` of class `C` with a 10×10 outer rect,
used as the resolution target in concrete scenarios. -/
def wMain : Window :=
  { className := "C", title := "T", rectQ := some (0, 0, 10, 10) }

/-- Environment for concrete scenarios: pywin32 and pydirectinput
available, a 1920×1080 primary display, and `wMain` the only window. -/
def envMain : Env :=
  { metrics := some (1920, 1080), windows := [wMain] }

/-- Two visible windows of equal 100-unit area with different titles,
enumerated `wFirst` before `wSecond`, for the tie-breaking scenario. -/
def wFirst : Window :=
  { className := "C", title := "first", rectQ := some (0, 0, 10, 10) }

def wSecond : Window :=
  { className := "C", title := "second", rectQ := some (20, 0, 30, 10) }

/-- Environment whose enumeration yields the two equal-area windows. -/
def envTie : Env :=
  { windows := [wFirst, wSecond] }

/-- Click arguments with `x = 1.5` (outside the schema's `[0,1]` range)
against the screen target. -/
def argsOutOfRange : ToolArgs :=
  { target := some "screen", x := some (3/2 : ℚ), y := some 0 }

/-- The click outcome the server produces for `argsOutOfRange` in
`envMain`: the out-of-range `x` is mapped to `px = 2880` and the button
messages are posted there. -/
def clickOutOfRange : ClickOut :=
  { target := "screen", mode := "postmessage", button := "left",
    x := (3/2 : ℚ), y := 0, px := 2880, py := 0,
    rect := (0, 0, 1920, 1080), clicks := 1, intervalMs := 60,
    events := [ClickEvent.post WM_LBUTTONDOWN MK_LBUTTON 2880,
               ClickEvent.post WM_LBUTTONUP 0 2880],
    sleeps := [] }

/-! Helper lemmas. -/

/-- Rounding an exact integer returns it. -/
theorem pyRound_intCast (n : ℤ) : pyRound (n : ℚ) = n := by
  unfold pyRound
  simp

/-- Mapping the normalized coordinate `0` lands on the base edge. -/
theorem mapCoord_zero (base size : Int) : mapCoord base 0 size = base := by
  unfold mapCoord
  rw [zero_mul, add_zero, pyRound_intCast]

/-- Mapping the normalized coordinate `1` lands one width past the base
edge. -/
theorem mapCoord_one (base size : Int) : mapCoord base 1 size = base + size := by
  unfold mapCoord
  rw [one_mul]
  rw [show ((base : ℚ) + (size : ℚ)) = ((base + size : ℤ) : ℚ) by push_cast; ring]
  rw [pyRound_intCast]

/-- Concrete mapping of the out-of-range coordinate `3/2` over the
default 1920-wide screen rect. -/
theorem mapCoord_three_halves : mapCoord 0 (3/2) 1920 = 2880 := by
  unfold mapCoord
  rw [show ((0 : ℤ) : ℚ) + (3/2 : ℚ) * ((1920 : ℤ) : ℚ) = ((2880 : ℤ) : ℚ) by
    push_cast; ring]
  rw [pyRound_intCast]

/-- An empty fold input returns the seed. -/
theorem pickMax_eq_none {α : Type} (f : α → Int) (l : List α) :
    pickMax f l = none ↔ l = [] := by
  cases l <;> simp [pickMax]

/-- Characterization of the Python `max(..., key=...)` fold: the result
dominates the seed and every element, and is either the seed itself or
an element strictly greater than the seed and than everything listed
before it. -/
theorem foldl_pickStep_spec {α : Type} (f : α → Int) (xs : List α) :
    ∀ b : α,
      f b ≤ f (List.foldl (pickStep f) b xs) ∧
      (∀ y ∈ xs, f y ≤ f (List.foldl (pickStep f) b xs)) ∧
      (List.foldl (pickStep f) b xs = b ∨
        ∃ l₁ l₂, xs = l₁ ++ (List.foldl (pickStep f) b xs) :: l₂ ∧
          (∀ y ∈ l₁, f y < f (List.foldl (pickStep f) b xs)) ∧
          f b < f (List.foldl (pickStep f) b xs)) := by
  induction xs with
  | nil => intro b; simp
  | cons y ys ih =>
    intro b
    rw [List.foldl_cons]
    by_cases h : f b < f y
    · have hstep : pickStep f b y = y := by simp [pickStep, h]
      rw [hstep]
      obtain ⟨ih1, ih2, ih3⟩ := ih y
      set r := List.foldl (pickStep f) y ys with hr
      refine ⟨le_of_lt (lt_of_lt_of_le h ih1), ?_, ?_⟩
      · intro z hz
        rcases List.mem_cons.1 hz with rfl | hz
        · exact ih1
        · exact ih2 z hz
      · rcases ih3 with he | ⟨l₁, l₂, hsplit, hlt, hblt⟩
        · refine Or.inr ⟨[], ys, ?_, ?_, ?_⟩
          · rw [he]; rfl
          · intro v hv; cases hv
          · rw [he]; exact h
        · refine Or.inr ⟨y :: l₁, l₂, ?_, ?_, ?_⟩
          · rw [List.cons_append, ← hsplit]
          · intro v hv
            rcases List.mem_cons.1 hv with rfl | hv
            · exact hblt
            · exact hlt v hv
          · exact lt_trans h hblt
    · have hstep : pickStep f b y = b := by simp [pickStep, h]
      rw [hstep]
      obtain ⟨ih1, ih2, ih3⟩ := ih b
      set r := List.foldl (pickStep f) b ys with hr
      have hyb : f y ≤ f b := not_lt.1 h
      refine ⟨ih1, ?_, ?_⟩
      · intro z hz
        rcases List.mem_cons.1 hz with rfl | hz
        · exact le_trans hyb ih1
        · exact ih2 z hz
      · rcases ih3 with he | ⟨l₁, l₂, hsplit, hlt, hblt⟩
        · exact Or.inl he
        · refine Or.inr ⟨y :: l₁, l₂, ?_, ?_, ?_⟩
          · rw [List.cons_append, ← hsplit]
          · intro v hv
            rcases List.mem_cons.1 hv with rfl | hv
            · exact lt_of_le_of_lt hyb hblt
            · exact hlt v hv
          · exact hblt

/-- The selected element of `pickMax` is a member, dominates all
members, and strictly dominates every member listed before it. -/
theorem pickMax_spec {α : Type} (f : α → Int) (l : List α) (w : α)
    (h : pickMax f l = some w) :
    w ∈ l ∧ (∀ v ∈ l, f v ≤ f w) ∧
      ∃ l₁ l₂, l = l₁ ++ w :: l₂ ∧ ∀ v ∈ l₁, f v < f w := by
  cases l with
  | nil => cases h
  | cons x xs =>
    have hw : List.foldl (pickStep f) x xs = w := by
      simpa [pickMax] using h
    obtain ⟨h1, h2, h3⟩ := foldl_pickStep_spec f xs x
    rw [hw] at h1 h2 h3
    refine ⟨?_, ?_, ?_⟩
    · rcases h3 with he | ⟨l₁, l₂, hsplit, _, _⟩
      · rw [he]; exact List.mem_cons_self x xs
      · exact List.mem_cons_of_mem x
          (hsplit ▸ List.mem_append.2 (Or.inr (List.mem_cons_self w l₂)))
    · intro v hv
      rcases List.mem_cons.1 hv with rfl | hv
      · exact h1
      · exact h2 v hv
    · rcases h3 with he | ⟨l₁, l₂, hsplit, hlt, hblt⟩
      · refine ⟨[], xs, ?_, ?_⟩
        · rw [he]; rfl
        · intro v hv; cases hv
      · refine ⟨x :: l₁, l₂, ?_, ?_⟩
        · rw [List.cons_append, ← hsplit]
        · intro v hv
          rcases List.mem_cons.1 hv with rfl | hv
          · exact hblt
          · exact hlt v hv

/-! Claim theorems. -/

/-- Every response emitted for a message echoes that message's id. -/
theorem handleRequest_id (env : Env) (req : Req) :
    ∀ o ∈ handleRequest env req, rpcId o = req.id := by
  unfold handleRequest
  cases hm : req.method with
  | none => simp
  | some m =>
    dsimp only
    split_ifs with h1 h2 h3 h4 h5 h6
    · simp [rpcId]
    · simp
    · simp [rpcId]
    · simp [rpcId]
    · simp [rpcId]
    · rcases hn : req.params.name with _ | _ | n
      · simp [rpcId]
      · simp [rpcId]
      · by_cases he : n == ""
        · simp [he, rpcId]
        · simp only [he, if_false, Bool.false_eq_true]
          rcases hc : handleCall env n req.params.arguments with e | t
          · simp [rpcId]
          · simp [rpcId]
    · cases hid : req.id
      · simp
      · simp [rpcId, hid]

/-- C3 (counterexample): the claim quantifies over every rect with
`right ≥ left` and `bottom ≥ top` and asserts that `x=1,y=1` maps to
`(right, bottom)` within rounding; on the degenerate rect
`(0, 0, 0, 0)` the width/height floor of 1 makes `x=1,y=1` map to
`(1, 1)`, one full pixel away from `(right, bottom) = (0, 0)`. -/
theorem c3_counterexample : normToScreen 0 0 0 0 1 1 ≠ (0, 0) := by
  have h : normToScreen 0 0 0 0 1 1 = (1, 1) := by
    simp [normToScreen, mapCoord_one]
  rw [h]
  decide

/-- C3 (amended): the mapping computes
`px = round(left + x*max(1,right-left))` and
`py = round(top + y*max(1,bottom-top))`; `x=0,y=0` maps to
`(left, top)` for every rect, and `x=1,y=1` maps to `(right, bottom)`
exactly whenever `right > left` and `bottom > top` (when a side is
degenerate the floor of 1 overshoots that side by one pixel). -/
theorem c3_mapping (l t r b : Int) :
    normToScreen l t r b 0 0 = (l, t) ∧
    (normToScreen l t r b 1 1 =
      (pyRound ((l : ℚ) + 1 * ((max 1 (r - l) : Int) : ℚ)),
       pyRound ((t : ℚ) + 1 * ((max 1 (b - t) : Int) : ℚ)))) ∧
    (l < r → t < b → normToScreen l t r b 1 1 = (r, b)) := by
  refine ⟨?_, ?_, ?_⟩
  · simp [normToScreen, mapCoord_zero]
  · simp [normToScreen, mapCoord]
  · intro h1 h2
    have hw : max 1 (r - l) = r - l := max_eq_right (by omega)
    have hh : max 1 (b - t) = b - t := max_eq_right (by omega)
    simp [normToScreen, mapCoord_one, hw, hh]

/-- C3 (witness): the amended statement at the rect `(0, 0, 10, 5)`. -/
theorem c3_mapping_witness :
    normToScreen 0 0 10 5 0 0 = (0, 0) ∧ normToScreen 0 0 10 5 1 1 = (10, 5) :=
  ⟨(c3_mapping 0 0 10 5).1, (c3_mapping 0 0 10 5).2.2 (by decide) (by decide)⟩

/-- C4: under a successful enumeration, window resolution returns
`NotFound` exactly when no enumerated window passes the class/title
filters, and otherwise returns a filtered candidate of maximal
bounding-rectangle area that strictly exceeds the area of every
candidate enumerated before it (ties go to the first-enumerated). -/
theorem c4_resolution (env : Env) (t : WindowTarget)
    (h1 : env.win32 = true) (h2 : env.enumFails = false) :
    (findWindow env t = none ↔ env.windows.filter (enumKeeps t) = []) ∧
    (∀ w, findWindow env t = some w →
      w ∈ env.windows.filter (enumKeeps t) ∧
      (∀ v ∈ env.windows.filter (enumKeeps t), area v ≤ area w) ∧
      ∃ l₁ l₂, env.windows.filter (enumKeeps t) = l₁ ++ w :: l₂ ∧
        ∀ v ∈ l₁, area v < area w) := by
  have hfw : findWindow env t = pickMax area (env.windows.filter (enumKeeps t)) := by
    simp [findWindow, h1, h2]
  constructor
  · rw [hfw]
    exact pickMax_eq_none area (env.windows.filter (enumKeeps t))
  · intro w hw
    rw [hfw] at hw
    exact pickMax_spec area (env.windows.filter (enumKeeps t)) w hw

/-- C4 (witness): in the two-window tie environment both windows pass
the empty filter with equal areas, and the first-enumerated one is
selected; the claim's hypotheses hold by computation. -/
theorem c4_resolution_witness :
    envTie.win32 = true ∧ envTie.enumFails = false ∧
    (findWindow envTie {} = none ↔ envTie.windows.filter (enumKeeps {}) = []) :=
  ⟨rfl, rfl, (c4_resolution envTie {} rfl rfl).1⟩

/-- C6: a malformed input line (blank, undecodable, or decoding to a
non-object) contributes no output and leaves the processing of the
remaining lines unchanged, and the loop processes every line of the
stream in order (it never stops early on bad input). -/
theorem c6_transport (env : Env) (bad : Line) (rest ls : List Line)
    (h : malformed bad = true) :
    processLines env (bad :: rest) = processLines env rest ∧
    processLines env (ls ++ rest) = processLines env ls ++ processLines env rest := by
  constructor
  · cases bad with
    | obj r => simp [malformed] at h
    | empty => simp [processLines, lineOut]
    | badJson => simp [processLines, lineOut]
    | nonObject => simp [processLines, lineOut]
  · simp [processLines]

/-- C6 (witness): a bad-JSON line before a `tools/list` request is
dropped, and the request is still answered. -/
theorem c6_transport_witness :
    malformed Line.badJson = true ∧
    processLines ({} : Env)
        [Line.badJson, Line.obj { method := some "tools/list", id := some 7 }] =
      [RpcOut.res (some 7) ResultVal.toolsList] := by
  refine ⟨rfl, ?_⟩
  have h := (c6_transport ({} : Env) Line.badJson
    [Line.obj { method := some "tools/list", id := some 7 }] [] rfl).1
  rw [h]
  decide

/-- C8: resolving a capture/click rect for `target=screen` always
succeeds: it is the primary-display rectangle `(0, 0, width, height)`
when the metrics query answers, and exactly `(0, 0, 1920, 1080)` when
it fails. -/
theorem c8_screen_rect (env : Env) (wt : WindowTarget) :
    getCaptureRect env "screen" wt =
      Except.ok (match env.metrics with
        | some (w, h) => (0, 0, w, h)
        | none => (0, 0, 1920, 1080)) := by
  unfold getCaptureRect
  rcases hm : env.metrics with _ | ⟨w, h⟩ <;> simp [hm]

/-- C7: virtual-key resolution agrees with the four-tier precedence
chain (exact alias, then F1–F24 pattern, then single alphanumeric
character, then platform key scan), and it fails — with the message
`Unsupported key: <name>` — exactly when all four tiers fail on the
stripped, lowered key name. -/
theorem c7_vk_precedence (scan : String → Int) (name : String) :
    vkFromKey scan name = vkFourTier scan name ∧
    (∀ e, vkFromKey scan name = Except.error e ↔
      (special.lookup (pyLower (pyStrip name)) = none ∧
       fKeyCode (pyLower (pyStrip name)) = none ∧
       charCode (pyLower (pyStrip name)) = none ∧
       scan (pyLower (pyStrip name)) = -1 ∧
       e = "Unsupported key: " ++ name)) := by
  constructor
  · simp only [vkFromKey, vkFourTier]
    rcases h1 : special.lookup (pyLower (pyStrip name)) with _ | v <;>
      rcases h2 : fKeyCode (pyLower (pyStrip name)) with _ | w <;>
        rcases h3 : charCode (pyLower (pyStrip name)) with _ | u <;>
          by_cases h4 : scan (pyLower (pyStrip name)) = -1 <;>
            simp [h1, h2, h3, h4]
  · intro e
    simp only [vkFromKey]
    rcases h1 : special.lookup (pyLower (pyStrip name)) with _ | v
    · rcases h2 : fKeyCode (pyLower (pyStrip name)) with _ | w
      · rcases h3 : charCode (pyLower (pyStrip name)) with _ | u
        · by_cases h4 : scan (pyLower (pyStrip name)) = -1
          · simp only [h1, h2, h3, h4, beq_iff_eq, if_true, beq_self_eq_true,
              ite_true, Except.error.injEq]
            constructor
            · intro h
              exact ⟨trivial, trivial, trivial, trivial, h.symm⟩
            · intro h
              exact h.2.2.2.2.symm
          · have h4b : (scan (pyLower (pyStrip name)) == -1) = false := by
              simp [h4]
            simp [h1, h2, h3, h4, h4b]
        · simp [h1, h2, h3]
      · simp [h1, h2]
    · simp [h1]

/-- C2 (counterexample): the claim asserts exactly one response for
every request with a non-null id and none for every message without an
id, for every method; but an `initialized` request carrying id 1 gets
no response at all, while an `initialize` notification carrying no id
still gets a response (with a null id). -/
theorem c2_counterexample :
    handleRequest {} { method := some "initialized", id := some 1 } = [] ∧
    handleRequest {} { method := some "initialize", id := none } =
      [RpcOut.res none (ResultVal.initResult "2024-11-05")] := by
  constructor
  · decide
  · decide

/-- C2 (amended): every emitted response echoes the message's id;
`initialized` and `notifications/initialized` never get a response,
even with an id; `initialize`, `tools/list`, `resources/list`,
`prompts/list` and `tools/call` always emit exactly one response,
even without an id (it is then tagged with a null id); every other
method gets exactly one response when an id is present and none
otherwise. -/
theorem c2_routing (env : Env) (req : Req) (m : String)
    (hm : req.method = some m) :
    (∀ o ∈ handleRequest env req, rpcId o = req.id) ∧
    ((m = "initialized" ∨ m = "notifications/initialized") →
      handleRequest env req = []) ∧
    ((m = "initialize" ∨ m = "tools/list" ∨ m = "resources/list" ∨
        m = "prompts/list" ∨ m = "tools/call") →
      (handleRequest env req).length = 1) ∧
    ((m ≠ "initialize" ∧ m ≠ "initialized" ∧ m ≠ "notifications/initialized" ∧
        m ≠ "tools/list" ∧ m ≠ "resources/list" ∧ m ≠ "prompts/list" ∧
        m ≠ "tools/call") →
      ((req.id ≠ none → (handleRequest env req).length = 1) ∧
       (req.id = none → handleRequest env req = []))) := by
  obtain ⟨mo, rid, ps⟩ := req
  dsimp only at hm ⊢
  subst hm
  refine ⟨handleRequest_id env _, ?_, ?_, ?_⟩
  · rintro (rfl | rfl) <;> simp [handleRequest]
  · rintro (rfl | rfl | rfl | rfl | rfl) <;> simp only [handleRequest] <;> simp
    rcases hn : ps.name with _ | _ | n
    · simp
    · simp
    · by_cases he : n = ""
      · simp [he]
      · rcases hc : handleCall env n ps.arguments with e | t <;> simp [he, hc]
  · rintro ⟨n1, n2, n3, n4, n5, n6, n7⟩
    have b1 : (m == "initialize") = false := beq_eq_false_iff_ne.2 n1
    have b2 : (m == "initialized") = false := beq_eq_false_iff_ne.2 n2
    have b3 : (m == "notifications/initialized") = false := beq_eq_false_iff_ne.2 n3
    have b4 : (m == "tools/list") = false := beq_eq_false_iff_ne.2 n4
    have b5 : (m == "resources/list") = false := beq_eq_false_iff_ne.2 n5
    have b6 : (m == "prompts/list") = false := beq_eq_false_iff_ne.2 n6
    have b7 : (m == "tools/call") = false := beq_eq_false_iff_ne.2 n7
    cases rid with
    | none => simp [handleRequest, b1, b2, b3, b4, b5, b6, b7]
    | some v =>
      constructor
      · intro _
        simp [handleRequest, b1, b2, b3, b4, b5, b6, b7]
      · intro hcontra
        simp at hcontra

/-- C2 (witness): the amended routing facts at a concrete unknown
method with an id present. -/
theorem c2_routing_witness :
    ((("ping" : String) ≠ "initialize" ∧ ("ping" : String) ≠ "initialized" ∧
        ("ping" : String) ≠ "notifications/initialized" ∧
        ("ping" : String) ≠ "tools/list" ∧ ("ping" : String) ≠ "resources/list" ∧
        ("ping" : String) ≠ "prompts/list" ∧ ("ping" : String) ≠ "tools/call")) ∧
    (handleRequest {} { method := some "ping", id := some 3 }).length = 1 := by
  refine ⟨by decide, ?_⟩
  have h := (c2_routing {} { method := some "ping", id := some 3 } "ping" rfl).2.2.2
  exact (h (by decide)).1 (by decide)

/-- C9 (counterexample): the claim promises that the result echoes the
client-supplied `protocolVersion` string whenever one is present; a
client supplying the empty string (present, but falsy in the `or`
chain) is answered with the fixed default instead. -/
theorem c9_counterexample :
    handleRequest {}
        { method := some "initialize", id := some 1,
          params := { protocolVersion := some "" } } =
      [RpcOut.res (some 1) (ResultVal.initResult "2024-11-05")] ∧
    ("2024-11-05" : String) ≠ "" := by
  constructor
  · decide
  · decide

/-- C9 (amended): `initialize` always succeeds with exactly one
response, whose `protocolVersion` is the client-supplied string when
one is present and non-empty, and the fixed default
`MCP_PROTOCOL_VERSION` when the field is absent or empty. -/
theorem c9_init_version (env : Env) (i : Option Int) (ps : ReqParams) :
    handleRequest env { method := some "initialize", id := i, params := ps } =
      [RpcOut.res i (ResultVal.initResult
        (match ps.protocolVersion with
         | some s => if s = "" then MCP_PROTOCOL_VERSION else s
         | none => MCP_PROTOCOL_VERSION))] := by
  simp only [handleRequest]
  rcases h : ps.protocolVersion with _ | s
  · simp [initVersion, orStr, h]
  · by_cases hs : s = ""
    · simp [initVersion, orStr, h, hs]
    · simp [initVersion, orStr, h, hs]

/-- C5: a `tools/call` request with a non-null id is always answered by
exactly one response: either a success result or an error bearing the
fixed application code `-32000` and the raised exception's message; in
particular an unknown tool name (non-empty, with well-formed arguments)
is answered `-32000` with message `unknown tool: <name>`. -/
theorem c5_call_errors (env : Env) (i : Int) (ps : ReqParams) :
    ((∃ r, handleRequest env
        { method := some "tools/call", id := some i, params := ps } =
          [RpcOut.res (some i) r]) ∨
     (∃ s, handleRequest env
        { method := some "tools/call", id := some i, params := ps } =
          [RpcOut.err (some i) (-32000) s])) ∧
    (∀ n, ps.name = NameParam.str n → n ≠ "" →
      ps.arguments ≠ ArgsParam.nonObject →
      n ∉ (["capture", "click", "key", "wait"] : List String) →
      handleRequest env
          { method := some "tools/call", id := some i, params := ps } =
        [RpcOut.err (some i) (-32000) ("unknown tool: " ++ n)]) := by
  constructor
  · simp only [handleRequest]
    rcases hn : ps.name with _ | _ | n
    · exact Or.inr ⟨"params.name is required", by simp⟩
    · exact Or.inr ⟨"params.name is required", by simp⟩
    · by_cases he : n = ""
      · exact Or.inr ⟨"params.name is required", by simp [he]⟩
      · rcases hc : handleCall env n ps.arguments with e | t
        · exact Or.inr ⟨e, by simp [he, hc]⟩
        · exact Or.inl ⟨ResultVal.toolCall t, by simp [he, hc]⟩
  · intro n hn hne hobj hnot
    have hcall : handleCall env n ps.arguments =
        Except.error ("unknown tool: " ++ n) := by
      have hd : ∀ a : ToolArgs, handleCall.dispatch env n a =
          Except.error ("unknown tool: " ++ n) := by
        intro a
        have d1 : (n == "capture") = false := by
          simp only [List.mem_cons, not_or] at hnot
          exact beq_eq_false_iff_ne.2 hnot.1
        have d2 : (n == "click") = false := by
          simp only [List.mem_cons, not_or] at hnot
          exact beq_eq_false_iff_ne.2 hnot.2.1
        have d3 : (n == "key") = false := by
          simp only [List.mem_cons, not_or] at hnot
          exact beq_eq_false_iff_ne.2 hnot.2.2.1
        have d4 : (n == "wait") = false := by
          simp only [List.mem_cons, not_or] at hnot
          exact beq_eq_false_iff_ne.2 hnot.2.2.2.1
        simp [handleCall.dispatch, d1, d2, d3, d4]
      rcases ha : ps.arguments with _ | _ | a
      · simp [handleCall, ha, hd]
      · exact absurd ha hobj
      · simp [handleCall, ha, hd]
    simp [handleRequest, hn, hne, hcall]

/-- C5 (witness): calling the unknown tool `zzz` with id 1 produces the
promised error response. -/
theorem c5_call_errors_witness :
    handleRequest {}
        { method := some "tools/call", id := some 1,
          params := { name := NameParam.str "zzz" } } =
      [RpcOut.err (some 1) (-32000) ("unknown tool: " ++ "zzz")] :=
  (c5_call_errors {} 1 { name := NameParam.str "zzz" }).2 "zzz" rfl
    (by decide) (by decide) (by decide)

/-- C1 (counterexample): a `click` with `x = 1.5` is not rejected: the
call succeeds, the normalized-to-screen transform is applied to the
out-of-range value, and the resulting screen point `px = 2880` (one and
a half screen widths) is used for the posted button messages. -/
theorem c1_counterexample :
    toolClick envMain argsOutOfRange = Except.ok clickOutOfRange := by
  simp [toolClick, envMain, argsOutOfRange, wMain, clickOutOfRange,
    getCaptureRect, findWindow,
    pickMax, enumKeeps, orInt, orStr, pyOrOptStr, orBool, optStrTruthy, pyLower,
    normToScreen, loopSleeps, mapCoord_zero, mapCoord_three_halves,
    WM_LBUTTONDOWN, WM_LBUTTONUP, MK_LBUTTON, List.flatMap]
  decide

/-- C1 (amended): the server applies no range validation to `x`,`y`:
whatever the supplied values, a successful `click` carries them
unchanged and its screen point is exactly the normalized-to-screen
transform of those values over the resolved rect. -/
theorem c1_no_validation (env : Env) (a : ToolArgs) (x y : ℚ) (out : ClickOut)
    (hx : a.x = some x) (hy : a.y = some y)
    (h : toolClick env a = Except.ok out) :
    out.x = x ∧ out.y = y ∧
    (out.px, out.py) =
      normToScreen out.rect.1 out.rect.2.1 out.rect.2.2.1 out.rect.2.2.2 x y := by
  unfold toolClick at h
  simp only [hx, hy] at h
  split at h
  · exact absurd h (by simp)
  · rename_i l t r b heq
    rcases hp : normToScreen l t r b x y with ⟨px, py⟩
    rw [hp] at h
    split at h
    · split at h
      · exact absurd h (by simp)
      · rw [Except.ok.injEq] at h
        subst h
        simp [hp]
    · split at h
      · exact absurd h (by simp)
      · split at h
        · exact absurd h (by simp)
        · rw [Except.ok.injEq] at h
          subst h
          simp [hp]

/-- C1 (witness): the amended statement at the concrete out-of-range
call of the counterexample. -/
theorem c1_no_validation_witness :
    argsOutOfRange.x = some (3/2 : ℚ) ∧
    ∃ out, toolClick envMain argsOutOfRange = Except.ok out ∧
      out.x = (3/2 : ℚ) ∧ out.y = 0 ∧
      (out.px, out.py) =
        normToScreen out.rect.1 out.rect.2.1 out.rect.2.2.1 out.rect.2.2.2
          (3/2 : ℚ) 0 := by
  refine ⟨rfl, ?_⟩
  have hcall : toolClick envMain argsOutOfRange = Except.ok clickOutOfRange := by
    simp [toolClick, envMain, argsOutOfRange, wMain, clickOutOfRange,
      getCaptureRect, findWindow,
      pickMax, enumKeeps, orInt, orStr, pyOrOptStr, orBool, optStrTruthy, pyLower,
      normToScreen, loopSleeps, mapCoord_zero, mapCoord_three_halves,
      WM_LBUTTONDOWN, WM_LBUTTONUP, MK_LBUTTON, List.flatMap]
    decide
  exact ⟨clickOutOfRange, hcall,
    c1_no_validation envMain argsOutOfRange (3/2 : ℚ) 0 clickOutOfRange
      rfl rfl hcall⟩

/-- C10: an explicit `ms=0` to `wait` is treated as absent and replaced
by the 250 ms default (slept and echoed); an explicit `interval_ms=0`
to `click` is replaced by the 60 ms default, slept between the repeated
clicks; an explicit `interval_ms=0` to `key` is replaced by the 35 ms
default, slept between the repeated key messages. -/
theorem c10_falsy_defaults :
    toolWait { ms := some 0 } =
      Except.ok { text := "wait ok: 250ms", sleeps := [250], ms := 250 } ∧
    toolClick envMain
        { target := some "screen", x := some 0, y := some 0,
          clicks := some 3, interval_ms := some 0 } =
      Except.ok
        { target := "screen", mode := "postmessage", button := "left",
          x := 0, y := 0, px := 0, py := 0,
          rect := (0, 0, 1920, 1080), clicks := 3, intervalMs := 60,
          events := [ClickEvent.post WM_LBUTTONDOWN MK_LBUTTON 0,
                     ClickEvent.post WM_LBUTTONUP 0 0,
                     ClickEvent.post WM_LBUTTONDOWN MK_LBUTTON 0,
                     ClickEvent.post WM_LBUTTONUP 0 0,
                     ClickEvent.post WM_LBUTTONDOWN MK_LBUTTON 0,
                     ClickEvent.post WM_LBUTTONUP 0 0],
          sleeps := [60, 60] } ∧
    toolKey envMain
        { key := some "esc", repeatN := some 2, interval_ms := some 0 } =
      Except.ok
        { text := "key ok: mode=postmessage key=esc action=press repeat=2",
          mode := "postmessage", key := "esc", action := "press",
          repeatN := 2, intervalMs := 35,
          events := [KeyEvent.post WM_KEYDOWN 27 0, KeyEvent.post WM_KEYUP 27 0,
                     KeyEvent.post WM_KEYDOWN 27 0, KeyEvent.post WM_KEYUP 27 0],
          sleeps := [35] } := by
  refine ⟨by decide, ?_, by decide⟩
  simp [toolClick, envMain, wMain, getCaptureRect, findWindow,
    pickMax, enumKeeps, orInt, orStr, pyOrOptStr, orBool, optStrTruthy, pyLower,
    normToScreen, loopSleeps, mapCoord_zero,
    WM_LBUTTONDOWN, WM_LBUTTONUP, MK_LBUTTON, List.flatMap]
  decide

end OkWW
